import Mathlib

/-!
Verification of the CI helper script `check_files_submitted.py`.

The script runs `git diff --name-only origin/<base_branch>...<pr_branch>`,
splits the captured standard output into lines and exits with code 1 when
more than 20 files changed, code 0 otherwise.  A failure of the diff tool
(non-zero exit code, or the launch raising) is converted into an `Error: _`
line on standard output and an empty file list (fail-open).

The external tool is modelled as a function from a command (the argv list
of the subprocess) to an outcome: either the subprocess launched and
finished with a return code, a captured stdout and a captured stderr, or
the launch itself raised with a message.
-/

namespace CheckFilesSubmitted

/-- Outcome of invoking the external diff tool, matching the two ways the
Python code can observe it: `Popen` + `communicate` succeed and deliver a
return code with captured stdout/stderr text, or the invocation raises. -/
inductive ToolOutcome where
  | launched (returncode : Int) (stdoutText : String) (stderrText : String)
  | raised (message : String)
deriving DecidableEq

/-- A tool is a deterministic response to each possible command line. -/
def Tool : Type := List String → ToolOutcome

/-- The characters at which Python `str.splitlines` breaks a line
(`\r\n` is additionally treated as a single break by `splitlinesAux`). -/
def isLineBreak (c : Char) : Bool :=
  c = '\n' || c = '\r' || c = '\x0b' || c = '\x0c' ||
  c = '\x1c' || c = '\x1d' || c = '\x1e' ||
  c = '\u0085' || c = '\u2028' || c = '\u2029'

/-- Worker for `splitlines`: walks the character list, accumulating the
current line in reverse in `acc`.  The flag `afterCR` records that the
previous character was a carriage return that already ended a line, so that
a following line feed is swallowed (the `\r\n` pair is one break).  A final
unterminated line is emitted, but a trailing line break does not create an
empty final line, exactly as in Python `str.splitlines`. -/
def splitlinesAux : List Char → Bool → List Char → List String
  | [], _, acc => if acc.isEmpty then [] else [String.mk acc.reverse]
  | c :: rest, afterCR, acc =>
    if afterCR && c = '\n' then splitlinesAux rest false acc
    else if c = '\r' then String.mk acc.reverse :: splitlinesAux rest true []
    else if isLineBreak c then String.mk acc.reverse :: splitlinesAux rest false []
    else splitlinesAux rest false (c :: acc)

/-- Python `str.splitlines` (with `keepends=False`). -/
def splitlines (s : String) : List String :=
  splitlinesAux s.data false []

/-- True when the last character of `s` is a line-break character. -/
def endsInBreak (s : String) : Bool :=
  (s.data.getLast?.map isLineBreak).getD false

/-- The exact argv list the script passes to `subprocess.Popen`:
`git diff --name-only origin/<base_branch>...<pr_branch>`. -/
def diffCommand (base_branch pr_branch : String) : List String :=
  ["git", "diff", "--name-only", "origin/" ++ base_branch ++ "..." ++ pr_branch]

/-- `get_changed_files` from the script.  The first component of the result
collects the lines the function prints on standard output, the second is the
returned list of changed files.

* tool launched, return code non-zero: print `Error: <stderr>` and return `[]`;
* tool launched, return code zero: return `stdout.splitlines()`;
* launch raised: print `Error: <message>` and return `[]`. -/
def get_changed_files (base_branch pr_branch : String) (tool : Tool) :
    List String × List String :=
  match tool (diffCommand base_branch pr_branch) with
  | ToolOutcome.launched rc out err =>
      if rc ≠ 0 then (["Error: " ++ err], [])
      else ([], splitlines out)
  | ToolOutcome.raised e => (["Error: " ++ e], [])

/-- The error text the diff operation reports for an outcome, when the
outcome is a failure: the captured stderr for a non-zero return code, the
raised message for a failed launch, nothing on success. -/
def toolErrorText : ToolOutcome → Option String
  | ToolOutcome.launched rc _ err => if rc ≠ 0 then some err else none
  | ToolOutcome.raised e => some e

/-- Result of one whole run of the program: the process exit code and the
lines printed on standard output, in order. -/
structure RunResult where
  exitCode : Nat
  stdoutLines : List String
deriving DecidableEq

/-- The fixed over-limit message printed by `main`. -/
def overLimitMessage : String := "Number of changed files exceeds 20."

/-- The `argparse` setup of `main`: two required positional arguments.
Any other shape of the argument list is a parse error (argparse exits
with code 2 after printing usage to standard error). -/
def parseArgs : List String → Option (String × String)
  | [b, p] => some (b, p)
  | _ => none

/-- `main` from the script, as a function of the argument list (past the
program name) and the external tool.  On a parse error the parser exits
with code 2 and nothing is printed on standard output; otherwise the diff
operation runs and the process exits 1 with the fixed message when more
than 20 files changed, else 0. -/
def main (argv : List String) (tool : Tool) : RunResult :=
  match parseArgs argv with
  | none => ⟨2, []⟩
  | some (base_branch, pr_branch) =>
      let r := get_changed_files base_branch pr_branch tool
      if r.2.length > 20 then ⟨1, r.1 ++ [overLimitMessage]⟩
      else ⟨0, r.1⟩

/-- A tool whose diff succeeds with 20 output lines. -/
def stdout20 : String := String.join (List.replicate 20 ("f\n"))

/-- A tool whose diff succeeds with 21 output lines. -/
def stdout21 : String := String.join (List.replicate 21 ("f\n"))

/-- Succeeding tool with 20 changed files. -/
def tool20 : Tool := fun _ => ToolOutcome.launched 0 stdout20 ("")

/-- Succeeding tool with 21 changed files. -/
def tool21 : Tool := fun _ => ToolOutcome.launched 0 stdout21 ("")

/-- Failing tool: launches but returns exit code 1 with stderr text. -/
def toolFail : Tool := fun _ => ToolOutcome.launched 1 ("x\n") ("boom")

/-- Failing tool: the launch itself raises. -/
def toolRaise : Tool := fun _ => ToolOutcome.raised ("git not found")

/-- A tool that raises on the diff command but is written differently from
`toolRaise`; it agrees with `toolRaise` on every non-empty command. -/
def toolRaise2 : Tool := fun cmd =>
  if cmd = [] then ToolOutcome.launched 0 ("") ("")
  else ToolOutcome.raised ("git not found")

/-- A tool extensionally equal to `tool20` but defined differently. -/
def tool20b : Tool := fun cmd =>
  if cmd.length + 1 = 0 then ToolOutcome.raised ("x")
  else ToolOutcome.launched 0 stdout20 ("")

/-- Failing tool whose stderr text is `boom` and whose stdout is empty. -/
def toolBoom : Tool := fun _ => ToolOutcome.launched 1 ("") ("boom")

/-- Diff output made of one name and then twenty-one blank lines hidden in
twenty-one consecutive newline characters. -/
def stdoutBlank : String := "a" ++ String.join (List.replicate 21 ("\n"))

/-- Succeeding tool whose stdout is `stdoutBlank`. -/
def toolBlank : Tool := fun _ => ToolOutcome.launched 0 stdoutBlank ("")

/-! ## Helper lemmas about `splitlines` -/

theorem isLineBreak_cr : isLineBreak '\r' = true := by decide

theorem isLineBreak_lf : isLineBreak '\n' = true := by decide

/-- Unfolding lemma: a non-break character is pushed onto the accumulator
and clears the after-carriage-return flag. -/
theorem splitlinesAux_cons_nonbreak (c : Char) (rest acc : List Char)
    (b : Bool) (hc : isLineBreak c = false) :
    splitlinesAux (c :: rest) b acc = splitlinesAux rest false (c :: acc) := by
  have hlf : ¬c = '\n' := by
    intro h
    rw [h, isLineBreak_lf] at hc
    exact absurd hc (by decide)
  have hcr : ¬c = '\r' := by
    intro h
    rw [h, isLineBreak_cr] at hc
    exact absurd hc (by decide)
  simp [splitlinesAux, hlf, hcr, hc]

/-- Unfolding lemma: a newline with the flag clear ends the current line. -/
theorem splitlinesAux_cons_newline (rest acc : List Char) :
    splitlinesAux ('\n' :: rest) false acc =
      String.mk acc.reverse :: splitlinesAux rest false [] := by
  simp [splitlinesAux, isLineBreak_lf]

/-- One-step unfolding of `splitlinesAux` on a cons cell. -/
theorem splitlinesAux_cons (c : Char) (rest : List Char) (b : Bool)
    (acc : List Char) :
    splitlinesAux (c :: rest) b acc =
      if b && c = '\n' then splitlinesAux rest false acc
      else if c = '\r' then
        String.mk acc.reverse :: splitlinesAux rest true []
      else if isLineBreak c then
        String.mk acc.reverse :: splitlinesAux rest false []
      else splitlinesAux rest false (c :: acc) := rfl

/-- Each line of break-free characters followed by a newline becomes one
element of the output of `splitlinesAux`. -/
theorem splitlinesAux_line (l : List Char) (t acc : List Char)
    (hl : ∀ c ∈ l, isLineBreak c = false) :
    splitlinesAux (l ++ '\n' :: t) false acc =
      String.mk (acc.reverse ++ l) :: splitlinesAux t false [] := by
  induction l generalizing acc with
  | nil => simpa using splitlinesAux_cons_newline t acc
  | cons c l ih =>
      have hc : isLineBreak c = false := hl c (List.mem_cons_self c l)
      rw [List.cons_append, splitlinesAux_cons_nonbreak c _ _ _ hc,
        ih (c :: acc) (fun d hd => hl d (List.mem_cons_of_mem c hd))]
      simp

/-- Appending one final newline to a character list whose last character is
not a line break does not change the output of `splitlinesAux`. -/
theorem splitlinesAux_append_newline (cs : List Char) :
    ∀ (b : Bool) (acc : List Char), cs ≠ [] →
    (∀ c, cs.getLast? = some c → isLineBreak c = false) →
    splitlinesAux (cs ++ ['\n']) b acc = splitlinesAux cs b acc := by
  induction cs with
  | nil => intro b acc hne _; exact absurd rfl hne
  | cons c cs ih =>
      intro b acc _ hlast
      cases cs with
      | nil =>
          have hc : isLineBreak c = false := hlast c rfl
          rw [List.cons_append, List.nil_append,
            splitlinesAux_cons_nonbreak c _ _ _ hc,
            splitlinesAux_cons_nonbreak c _ _ _ hc,
            splitlinesAux_cons_newline]
          simp [splitlinesAux]
      | cons d cs' =>
          have hlast' : ∀ e, (d :: cs').getLast? = some e → isLineBreak e = false := by
            intro e he
            exact hlast e (by rw [List.getLast?_cons_cons]; exact he)
          have hrec : ∀ (b' : Bool) (acc' : List Char),
              splitlinesAux ((d :: cs') ++ ['\n']) b' acc' =
                splitlinesAux (d :: cs') b' acc' :=
            fun b' acc' => ih b' acc' (List.cons_ne_nil d cs') hlast'
          rw [List.cons_append, splitlinesAux_cons, splitlinesAux_cons]
          split_ifs with h1 h2 h3
          · exact hrec false acc
          · rw [hrec true []]
          · rw [hrec false []]
          · exact hrec false (c :: acc)

/-- Flattened newline-terminated break-free lines split back into the
original list of lines. -/
theorem splitlinesAux_flat (lines : List String)
    (h : ∀ l ∈ lines, ∀ c ∈ l.data, isLineBreak c = false) :
    splitlinesAux ((lines.map (fun l => l.data ++ ['\n'])).flatten) false [] =
      lines := by
  induction lines with
  | nil => rfl
  | cons l ls ih =>
      simp only [List.map_cons, List.flatten_cons]
      rw [List.append_assoc, List.singleton_append,
        splitlinesAux_line l.data _ [] (h l (List.mem_cons_self l ls)),
        ih (fun m hm => h m (List.mem_cons_of_mem l hm))]
      simp

/-- `splitlines` recovers the list of lines from the newline-terminated
concatenation the diff tool emits, one element per line, duplicates and
ordering preserved. -/
theorem splitlines_join (lines : List String)
    (h : ∀ l ∈ lines, ∀ c ∈ l.data, isLineBreak c = false) :
    splitlines (String.join (lines.map (fun l => l ++ "\n"))) = lines := by
  unfold splitlines
  rw [String.join_eq]
  have hmap : (lines.map (fun l => l ++ "\n")).map String.data =
      lines.map (fun l => l.data ++ ['\n']) := by
    rw [List.map_map]
    rfl
  show splitlinesAux ((lines.map (fun l => l ++ "\n")).map String.data).flatten
    false [] = lines
  rw [hmap]
  exact splitlinesAux_flat lines h

/-- String-level version of `splitlinesAux_append_newline`: one trailing
newline after a string whose final character is not a line break changes
nothing about `splitlines`. -/
theorem splitlines_append_newline (s : String) (h1 : s ≠ "")
    (h2 : endsInBreak s = false) :
    splitlines (s ++ "\n") = splitlines s := by
  have hd : s.data ≠ [] := by
    intro h
    apply h1
    cases s with
    | mk d =>
        simp only at h
        rw [h]
  have hlast : ∀ c, s.data.getLast? = some c → isLineBreak c = false := by
    intro c hc
    unfold endsInBreak at h2
    rw [hc] at h2
    exact h2
  show splitlinesAux ((s ++ "\n").data) false [] = splitlinesAux s.data false []
  have hdata : (s ++ "\n").data = s.data ++ ['\n'] := rfl
  rw [hdata]
  exact splitlinesAux_append_newline s.data false [] hd hlast

/-- One-step unfolding of `main` on exactly two positional arguments. -/
theorem main_two_args (b p : String) (tool : Tool) :
    main [b, p] tool =
      if (get_changed_files b p tool).2.length > 20
      then ⟨1, (get_changed_files b p tool).1 ++ [overLimitMessage]⟩
      else ⟨0, (get_changed_files b p tool).1⟩ := rfl

/-! ## The claims -/

/-- C1: for every pair of branch names for which the diff tool succeeds
(return code 0) and whose captured stdout splits into a changed-file list
of length L, `main` exits with code 1 exactly when L is greater than 20 and
with code 0 exactly when L is at most 20. -/
theorem main_exit_one_iff_over_twenty (base_branch pr_branch out err : String)
    (tool : Tool)
    (hsucc : tool (diffCommand base_branch pr_branch) =
      ToolOutcome.launched 0 out err) :
    ((main [base_branch, pr_branch] tool).exitCode = 1 ↔
      20 < (splitlines out).length) ∧
    ((main [base_branch, pr_branch] tool).exitCode = 0 ↔
      (splitlines out).length ≤ 20) := by
  have hg : get_changed_files base_branch pr_branch tool =
      ([], splitlines out) := by
    unfold get_changed_files
    rw [hsucc]
    simp
  rw [main_two_args, hg]
  by_cases h : 20 < (splitlines out).length
  · rw [if_pos h]
    exact ⟨⟨fun _ => h, fun _ => rfl⟩,
      ⟨fun h2 => absurd h2 Nat.one_ne_zero,
        fun h2 => absurd h (Nat.not_lt.mpr h2)⟩⟩
  · rw [if_neg h]
    exact ⟨⟨fun h2 => absurd h2 Nat.zero_ne_one, fun hL => absurd hL h⟩,
      ⟨fun _ => Nat.not_lt.mp h, fun _ => rfl⟩⟩

/-- Witness for C1 at the boundary: a 20-line diff gives exit code 0, a
21-line diff gives exit code 1. -/
theorem main_exit_one_iff_over_twenty_witness :
    (((main ["m", "f"] tool20).exitCode = 1 ↔
        20 < (splitlines stdout20).length) ∧
      ((main ["m", "f"] tool20).exitCode = 0 ↔
        (splitlines stdout20).length ≤ 20)) ∧
    (((main ["m", "f"] tool21).exitCode = 1 ↔
        20 < (splitlines stdout21).length) ∧
      ((main ["m", "f"] tool21).exitCode = 0 ↔
        (splitlines stdout21).length ≤ 20)) ∧
    (main ["m", "f"] tool20).exitCode = 0 ∧
    (main ["m", "f"] tool21).exitCode = 1 :=
  have h20 := main_exit_one_iff_over_twenty ("m") ("f") stdout20 ("") tool20 rfl
  have h21 := main_exit_one_iff_over_twenty ("m") ("f") stdout21 ("") tool21 rfl
  ⟨h20, h21, h20.2.mpr (by decide), h21.1.mpr (by decide)⟩

/-- C2: a diff tool failure, whether a non-zero return code or a raised
launch error, makes `get_changed_files` return the empty list and `main`
exit with code 0; a tool failure never produces exit code 1. -/
theorem tool_failure_fail_open (base_branch pr_branch : String) (tool : Tool)
    (hfail :
      (∃ rc out err, tool (diffCommand base_branch pr_branch) =
          ToolOutcome.launched rc out err ∧ rc ≠ 0) ∨
      (∃ e, tool (diffCommand base_branch pr_branch) = ToolOutcome.raised e)) :
    (get_changed_files base_branch pr_branch tool).2 = [] ∧
    (main [base_branch, pr_branch] tool).exitCode = 0 := by
  have hg : (get_changed_files base_branch pr_branch tool).2 = [] := by
    unfold get_changed_files
    rcases hfail with ⟨rc, out, err, h, hrc⟩ | ⟨e, h⟩
    · rw [h]
      simp [hrc]
    · rw [h]
  refine ⟨hg, ?_⟩
  rw [main_two_args, hg]
  simp

/-- Witness for C2: a tool returning exit code 1 and a tool whose launch
raises both yield an empty list and overall exit code 0. -/
theorem tool_failure_fail_open_witness :
    ((get_changed_files ("m") ("f") toolFail).2 = [] ∧
      (main ["m", "f"] toolFail).exitCode = 0) ∧
    ((get_changed_files ("m") ("f") toolRaise).2 = [] ∧
      (main ["m", "f"] toolRaise).exitCode = 0) :=
  ⟨tool_failure_fail_open ("m") ("f") toolFail
      (Or.inl ⟨1, "x\n", "boom", rfl, by decide⟩),
    tool_failure_fail_open ("m") ("f") toolRaise
      (Or.inr ⟨"git not found", rfl⟩)⟩

/-- C3: `get_changed_files` never raises to its caller: a non-zero return
code makes it print the captured stderr text in an `Error:` line and return
the empty list, and a raised launch failure likewise makes it print the
error message and return the empty list. -/
theorem get_changed_files_reports_and_returns (base_branch pr_branch : String)
    (tool : Tool) :
    (∀ rc out err, tool (diffCommand base_branch pr_branch) =
        ToolOutcome.launched rc out err → rc ≠ 0 →
        get_changed_files base_branch pr_branch tool =
          (["Error: " ++ err], [])) ∧
    (∀ e, tool (diffCommand base_branch pr_branch) = ToolOutcome.raised e →
        get_changed_files base_branch pr_branch tool =
          (["Error: " ++ e], [])) := by
  constructor
  · intro rc out err h hrc
    unfold get_changed_files
    rw [h]
    simp [hrc]
  · intro e h
    unfold get_changed_files
    rw [h]

/-- Witness for C3 on a tool failing with stderr `boom` and a tool whose
launch raises. -/
theorem get_changed_files_reports_and_returns_witness :
    get_changed_files ("m") ("f") toolFail = (["Error: " ++ "boom"], []) ∧
    get_changed_files ("m") ("f") toolRaise =
      (["Error: " ++ "git not found"], []) :=
  ⟨(get_changed_files_reports_and_returns ("m") ("f") toolFail).1
      1 ("x\n") ("boom") rfl (by decide),
    (get_changed_files_reports_and_returns ("m") ("f") toolRaise).2
      ("git not found") rfl⟩

/-- C4: on a successful tool run `get_changed_files` prints nothing and
returns exactly the `splitlines` decomposition of the captured stdout; the
empty stdout yields the empty list, and a stdout of newline-terminated
break-free lines yields exactly those lines, one element per line, with
duplicates and ordering preserved. -/
theorem success_returns_stdout_lines :
    (∀ base_branch pr_branch out err (tool : Tool),
        tool (diffCommand base_branch pr_branch) =
          ToolOutcome.launched 0 out err →
        get_changed_files base_branch pr_branch tool = ([], splitlines out)) ∧
    splitlines ("") = [] ∧
    (∀ lines : List String,
        (∀ l ∈ lines, ∀ c ∈ l.data, isLineBreak c = false) →
        splitlines (String.join (lines.map (fun l => l ++ "\n"))) = lines) := by
  refine ⟨?_, rfl, splitlines_join⟩
  intro base_branch pr_branch out err tool h
  unfold get_changed_files
  rw [h]
  simp

/-- Witness for C4: a concrete successful run, and a three-line output with
a duplicate entry recovered in emitted order. -/
theorem success_returns_stdout_lines_witness :
    get_changed_files ("m") ("f") tool20 = ([], splitlines stdout20) ∧
    splitlines (String.join
      ((["a", "b", "a"] : List String).map (fun l => l ++ "\n"))) =
      ["a", "b", "a"] :=
  ⟨success_returns_stdout_lines.1 ("m") ("f") stdout20 ("") tool20 rfl,
    success_returns_stdout_lines.2.2 ["a", "b", "a"] (by decide)⟩

/-- C5: whenever the returned changed-file list has more than 20 entries,
`main` prints exactly the fixed over-limit message on standard output and
exits with code 1. -/
theorem over_twenty_prints_message (base_branch pr_branch : String)
    (tool : Tool)
    (h : 20 < (get_changed_files base_branch pr_branch tool).2.length) :
    main [base_branch, pr_branch] tool = ⟨1, [overLimitMessage]⟩ := by
  have hp : (get_changed_files base_branch pr_branch tool).1 = [] := by
    rcases htool : tool (diffCommand base_branch pr_branch) with ⟨rc, out, err⟩ | e
    · unfold get_changed_files at h ⊢
      rw [htool] at h ⊢
      by_cases hrc : rc = 0
      · simp [hrc]
      · simp [hrc] at h
    · unfold get_changed_files at h
      rw [htool] at h
      simp at h
  rw [main_two_args, if_pos h, hp]
  rfl

/-- Witness for C5 on a 21-line diff output. -/
theorem over_twenty_prints_message_witness :
    main ["m", "f"] tool21 = ⟨1, [overLimitMessage]⟩ :=
  over_twenty_prints_message ("m") ("f") tool21 (by decide)

/-- On a parse failure `main` is the parser exit, code 2, nothing printed. -/
theorem main_eq_of_parse_none (argv : List String) (tool : Tool)
    (h : parseArgs argv = none) : main argv tool = ⟨2, []⟩ := by
  unfold main
  rw [h]

/-- On a parse success `main` behaves as on the two parsed arguments. -/
theorem main_eq_of_parse_some (argv : List String) (tool : Tool)
    (b p : String) (h : parseArgs argv = some (b, p)) :
    main argv tool = main [b, p] tool := by
  unfold main
  rw [h]
  rfl

/-- C6 counterexample: when the diff tool fails with captured stderr text
`boom`, the program prints the line `Error: boom`, which is neither
nothing, nor the error text `boom` verbatim, nor the fixed over-limit
message; so standard output is not always one of those three exact
shapes. -/
theorem stdout_three_shapes_counterexample :
    toolErrorText (toolBoom (diffCommand ("m") ("f"))) = some ("boom") ∧
    (main ["m", "f"] toolBoom).stdoutLines = ["Error: boom"] ∧
    ¬((main ["m", "f"] toolBoom).stdoutLines = [] ∨
      (main ["m", "f"] toolBoom).stdoutLines = ["boom"] ∨
      (main ["m", "f"] toolBoom).stdoutLines = [overLimitMessage]) := by
  decide

/-- C6 amended: on every run, standard output is exactly one of three
things: nothing, the tool error text behind the `Error: ` marker (diff failure
path), or the fixed over-limit message. -/
theorem stdout_three_shapes (argv : List String) (tool : Tool) :
    (main argv tool).stdoutLines = [] ∨
    (∃ bp e, parseArgs argv = some bp ∧
      toolErrorText (tool (diffCommand bp.1 bp.2)) = some e ∧
      (main argv tool).stdoutLines = ["Error: " ++ e]) ∨
    (main argv tool).stdoutLines = [overLimitMessage] := by
  rcases hp : parseArgs argv with _ | ⟨b, p⟩
  · left
    rw [main_eq_of_parse_none argv tool hp]
  · rw [main_eq_of_parse_some argv tool b p hp]
    rcases htool : tool (diffCommand b p) with ⟨rc, out, err⟩ | e
    · by_cases hrc : rc = 0
      · have hg : get_changed_files b p tool = ([], splitlines out) := by
          unfold get_changed_files
          rw [htool]
          simp [hrc]
        rw [main_two_args, hg]
        by_cases hlen : (splitlines out).length > 20
        · right; right
          rw [if_pos hlen]
          rfl
        · left
          rw [if_neg hlen]
      · have hg : get_changed_files b p tool = (["Error: " ++ err], []) := by
          unfold get_changed_files
          rw [htool]
          simp [hrc]
        right; left
        refine ⟨(b, p), err, rfl, ?_, ?_⟩
        · unfold toolErrorText
          rw [htool]
          simp [hrc]
        · rw [main_two_args, hg]
          rw [if_neg (by simp)]
    · have hg : get_changed_files b p tool = (["Error: " ++ e], []) := by
        unfold get_changed_files
        rw [htool]
      right; left
      refine ⟨(b, p), e, rfl, ?_, ?_⟩
      · unfold toolErrorText
        rw [htool]
      · rw [main_two_args, hg]
        rw [if_neg (by simp)]

/-- C7: with fewer than the two required positional arguments, `main` exits
with the parser exit code 2 (non-zero) without consulting the diff tool:
the run result is the same whatever the tool would answer. -/
theorem missing_argument_parser_failure (argv : List String)
    (tool1 tool2 : Tool) (h : argv.length < 2) :
    (main argv tool1).exitCode ≠ 0 ∧ (main argv tool1).exitCode = 2 ∧
    main argv tool1 = main argv tool2 := by
  have hp : parseArgs argv = none := by
    rcases argv with _ | ⟨a, _ | ⟨c, t⟩⟩
    · rfl
    · rfl
    · exfalso
      simp only [List.length_cons] at h
      omega
  rw [main_eq_of_parse_none argv tool1 hp, main_eq_of_parse_none argv tool2 hp]
  exact ⟨by decide, rfl, rfl⟩

/-- Witness for C7 on a single-argument invocation and two distinct
tools. -/
theorem missing_argument_parser_failure_witness :
    (main ["m"] tool20).exitCode ≠ 0 ∧ (main ["m"] tool20).exitCode = 2 ∧
    main ["m"] tool20 = main ["m"] toolRaise :=
  missing_argument_parser_failure ["m"] tool20 toolRaise (by decide)

/-- C8: determinism: two runs with identical arguments whose diff tool
gives identical return code, stdout and stderr produce identical exit
codes and identical printed output. -/
theorem identical_state_identical_run (argv : List String)
    (tool1 tool2 : Tool) (h : ∀ cmd, tool1 cmd = tool2 cmd) :
    main argv tool1 = main argv tool2 := by
  rcases hp : parseArgs argv with _ | ⟨b, p⟩
  · rw [main_eq_of_parse_none argv tool1 hp,
      main_eq_of_parse_none argv tool2 hp]
  · rw [main_eq_of_parse_some argv tool1 b p hp,
      main_eq_of_parse_some argv tool2 b p hp, main_two_args, main_two_args]
    have hg : get_changed_files b p tool1 = get_changed_files b p tool2 := by
      unfold get_changed_files
      rw [h (diffCommand b p)]
    rw [hg]

/-- Witness for C8 on two syntactically different but extensionally equal
tools. -/
theorem identical_state_identical_run_witness :
    main ["m", "f"] tool20 = main ["m", "f"] tool20b :=
  identical_state_identical_run ["m", "f"] tool20 tool20b
    (fun cmd => by simp [tool20, tool20b])

/-- C9: splitting with `splitlines` means a single trailing newline adds no
extra list element, while each blank line inside the output becomes an
empty-string element counted toward the threshold: one final newline after
a string not ending in a line break changes nothing, `a\nb\n` counts two
files, `a\n\nb` counts three including an empty entry, and an output of one
name followed by twenty-one newlines counts 21 entries and drives `main`
to exit code 1. -/
theorem trailing_newline_and_blank_lines (s : String) (h1 : s ≠ "")
    (h2 : endsInBreak s = false) :
    splitlines (s ++ "\n") = splitlines s ∧
    splitlines ("a\nb\n") = ["a", "b"] ∧
    splitlines ("a\n\nb") = ["a", "", "b"] ∧
    (splitlines stdoutBlank).length = 21 ∧
    (main ["m", "f"] toolBlank).exitCode = 1 :=
  ⟨splitlines_append_newline s h1 h2, by decide, by decide, by decide,
    by decide⟩

/-- Witness for C9 at the string `ab`. -/
theorem trailing_newline_and_blank_lines_witness :
    splitlines ("ab" ++ "\n") = splitlines ("ab") ∧
    splitlines ("a\nb\n") = ["a", "b"] ∧
    splitlines ("a\n\nb") = ["a", "", "b"] ∧
    (splitlines stdoutBlank).length = 21 ∧
    (main ["m", "f"] toolBlank).exitCode = 1 :=
  trailing_newline_and_blank_lines ("ab") (by decide) (by decide)

/-- C10: `get_changed_files` validates nothing: for every pair of strings,
empty strings included, the invoked command is exactly
`git diff --name-only origin/<base_branch>...<pr_branch>`, with the base
branch behind the `origin/` marker and the PR branch used as given, and
the result depends on the tool only through that single command. -/
theorem diff_command_shape_no_validation (base_branch pr_branch : String) :
    diffCommand base_branch pr_branch =
      ["git", "diff", "--name-only",
        "origin/" ++ base_branch ++ "..." ++ pr_branch] ∧
    (∀ tool1 tool2 : Tool,
      tool1 (diffCommand base_branch pr_branch) =
        tool2 (diffCommand base_branch pr_branch) →
      get_changed_files base_branch pr_branch tool1 =
        get_changed_files base_branch pr_branch tool2) := by
  refine ⟨rfl, fun tool1 tool2 h => ?_⟩
  unfold get_changed_files
  rw [h]

/-- Witness for C10 at two empty branch names. -/
theorem diff_command_shape_no_validation_witness :
    diffCommand ("") ("") = ["git", "diff", "--name-only", "origin/..."] ∧
    get_changed_files ("") ("") toolRaise =
      get_changed_files ("") ("") toolRaise2 :=
  ⟨(diff_command_shape_no_validation ("") ("")).1.trans (by decide),
    (diff_command_shape_no_validation ("") ("")).2 toolRaise toolRaise2
      (by decide)⟩

end CheckFilesSubmitted
